import Mathlib

/-!
Shallow embedding of the eco-ponto backend (Django/DRF application), from
`src/eco_map_backend/eco_points/views.py` and
`src/eco_map_backend/accounts/models.py`.

The database is modelled as explicit lists of rows plus auto-increment
counters for surrogate primary keys.  Each DRF view handler becomes a Lean
function over this state: querysets become list filters, `get_object_or_404`
becomes a `find?` whose `none` branch raises `NotFound`, and a raised DRF
exception aborts the request before any write, so a handler returns
`Except ApiError (Registry × row)` and an error leaves the state untouched.

Files `eco_points/models.py` and `eco_points/serializers.py` are not part of
the sources; where their behaviour matters (field defaults, serializer
writability) the definitions are modelled from the spec and say so in their
doc comments.
-/

namespace EcoPonto

/-- Moderation status of a collection point: the enumerated literal set
`pending / approved / rejected` (spec section 3). -/
inductive Status where
  | pending
  | approved
  | rejected
  deriving DecidableEq, Repr

/-- A user row from `accounts/models.py`: surrogate id plus the role flag
`is_staff` used by the `IsAdminUser` permission. -/
structure User where
  id : Nat
  is_staff : Bool
  deriving DecidableEq, Repr

/-- A `CollectionPoint` row.  `user` is the owner foreign key
(`filter(user=user)` in `views.py`), `is_active` and `status` are the
moderation fields, and `description` stands for the descriptive payload
(the precise descriptive columns live in the absent `models.py` and are
irrelevant to every claim). -/
structure CollectionPoint where
  id : Nat
  user : Nat
  description : String
  is_active : Bool
  status : Status
  deriving DecidableEq, Repr

/-- An `OperatingHour` row: surrogate id and the `collection_point_id`
foreign key used by `filter(collection_point_id=...)` and
`serializer.save(collection_point_id=...)` in `views.py`. -/
structure OperatingHour where
  id : Nat
  collection_point_id : Nat
  deriving DecidableEq, Repr

/-- A `PointReview` row: the reviewer foreign key `user_id` and the point
foreign key `collection_point_id`, the two columns filtered on by
`PointReviewFilteredList.get`. -/
structure PointReview where
  id : Nat
  user_id : Nat
  collection_point_id : Nat
  deriving DecidableEq, Repr

/-- A `PointImage` row: surrogate id, point foreign key, and the stored
file reference. -/
structure PointImage where
  id : Nat
  collection_point_id : Nat
  image : String
  deriving DecidableEq, Repr

/-- The persistent state: one list per table, in insertion order, plus the
auto-increment counters supplying fresh primary keys. -/
structure Registry where
  points : List CollectionPoint
  hours : List OperatingHour
  reviews : List PointReview
  images : List PointImage
  next_point_id : Nat
  next_hour_id : Nat
  next_image_id : Nat
  deriving Repr

/-- Database sanity maintained by the ORM: primary keys of points are below
the auto-increment counter and are unique, and every operating hour's
foreign key references an existing point. -/
def Registry.wf (db : Registry) : Prop :=
  (∀ p ∈ db.points, p.id < db.next_point_id) ∧
  (∀ p ∈ db.points, ∀ q ∈ db.points, p.id = q.id → p = q) ∧
  (∀ h ∈ db.hours, ∃ p ∈ db.points, p.id = h.collection_point_id)

instance (db : Registry) : Decidable db.wf := by
  unfold Registry.wf; infer_instance

/-- The error taxonomy of the DRF layer (spec section 7): 400, 401, 403, 404. -/
inductive ApiError where
  | ValidationError
  | AuthenticationRequired
  | PermissionDenied
  | NotFound
  deriving DecidableEq, Repr

/-- DRF's `IsAdminUser.has_permission`: `bool(request.user and request.user.is_staff)`;
declared on `UpdatePointStatusView` via `permission_classes = [IsAdminUser]`. -/
def IsAdminUser.has_permission (u : User) : Bool :=
  u.is_staff

/-- `ActiveCollectionPointsList.get_queryset` (views.py line 208):
`CollectionPoint.objects.filter(is_active=True)`. -/
def ActiveCollectionPointsList.get_queryset (db : Registry) : List CollectionPoint :=
  db.points.filter (fun p => p.is_active)

/-- `InactiveCollectionPointsList.get_queryset` (views.py line 229):
`CollectionPoint.objects.filter(is_active=False, status='pending')`. -/
def InactiveCollectionPointsList.get_queryset (db : Registry) : List CollectionPoint :=
  db.points.filter (fun p => !p.is_active && p.status == Status.pending)

/-- `UserSubmitedCollectionPointsList.get_queryset` (views.py line 188):
`CollectionPoint.objects.filter(user=user)` with `user = self.request.user`. -/
def UserSubmitedCollectionPointsList.get_queryset (db : Registry) (user : User) :
    List CollectionPoint :=
  db.points.filter (fun p => p.user == user.id)

/-- `OperatingHourDetail.get_queryset` (views.py lines 83-91): reads
`collection_point_pk` from the URL kwargs (`self.kwargs.get`, hence an
`Option`); filters hours by that foreign key when present, and returns the
empty queryset (`OperatingHour.objects.none()`) when absent.  No existence
check on the parent point is performed. -/
def OperatingHourDetail.get_queryset (db : Registry) (collection_point_pk : Option Nat) :
    List OperatingHour :=
  match collection_point_pk with
  | some pk => db.hours.filter (fun h => h.collection_point_id == pk)
  | none => []

/-- Request body accepted by `CollectionPointSerializer` on create/update.
`description` stands for the required descriptive payload; `is_active` and
`status` are values a client may try to supply for the moderation fields. -/
structure PointBody where
  description : Option String
  is_active : Option Bool
  status : Option Status
  deriving DecidableEq, Repr

/-- Request body for an operating hour; `collection_point_id` is a
client-supplied foreign-key value, if any. -/
structure OperatingHourBody where
  collection_point_id : Option Nat
  deriving DecidableEq, Repr

/-- Partial-update body consumed by `PointStatusUpdateSerializer`: the two
moderation fields, each optional (PATCH semantics).  An out-of-enum `status`
literal is rejected by the serializer as `ValidationError`; here the
enumerated type makes such a literal unrepresentable. -/
structure StatusBody where
  is_active : Option Bool
  status : Option Status
  deriving DecidableEq, Repr

/-- Create half of `CollectionPointList` (views.py lines 44-50).
Modelled from the spec: `eco_points/models.py` and `serializers.py` are not
in the sources, so the field policy comes from spec sections 3-4: the owner
is the caller's identity, required descriptive fields missing is a
`ValidationError`, and the handler always initializes `is_active = false`,
`status = pending` regardless of caller-supplied values for those two
fields. -/
def CollectionPointList.post (db : Registry) (caller : User) (body : PointBody) :
    Except ApiError (Registry × CollectionPoint) :=
  match body.description with
  | none => Except.error ApiError.ValidationError
  | some d =>
    let new_point : CollectionPoint :=
      { id := db.next_point_id, user := caller.id, description := d,
        is_active := false, status := Status.pending }
    Except.ok ({ db with points := db.points ++ [new_point],
                         next_point_id := db.next_point_id + 1 }, new_point)

/-- Update half of `CollectionPointDetail` (views.py lines 53-60).
Modelled from the spec: `serializers.py` is not in the sources; spec
section 4.1 says this path "permits modifying descriptive fields but must
not allow a non-admin caller to alter is_active/status", so the update
rewrites only the descriptive payload of the addressed row.  `NotFound`
when the id names no point. -/
def CollectionPointDetail.update (db : Registry) (pk : Nat) (body : PointBody) :
    Except ApiError (Registry × CollectionPoint) :=
  match db.points.find? (fun p => p.id == pk) with
  | none => Except.error ApiError.NotFound
  | some p =>
    match body.description with
    | none => Except.error ApiError.ValidationError
    | some d =>
      let p2 : CollectionPoint := { p with description := d }
      Except.ok ({ db with
        points := db.points.map (fun q => if q.id == pk then p2 else q) }, p2)

/-- Delete half of `CollectionPointDetail`.  Removes the addressed row; the
children follow by foreign-key cascade (the ORM default for the relations
prefetched in views.py line 16). -/
def CollectionPointDetail.delete (db : Registry) (pk : Nat) :
    Except ApiError Registry :=
  match db.points.find? (fun p => p.id == pk) with
  | none => Except.error ApiError.NotFound
  | some _ =>
    Except.ok { db with
      points := db.points.filter (fun p => !(p.id == pk)),
      hours := db.hours.filter (fun h => !(h.collection_point_id == pk)),
      images := db.images.filter (fun i => !(i.collection_point_id == pk)),
      reviews := db.reviews.filter (fun r => !(r.collection_point_id == pk)) }

/-- `UpdatePointStatusView` (views.py lines 242-250): an `UpdateAPIView`
with `permission_classes = [IsAdminUser]`, `lookup_field = 'pk'`, and
`PointStatusUpdateSerializer`.  DRF checks permissions before the object
lookup, so a non-admin caller is refused 403 whether or not the id exists.
The serializer (not in the sources) is modelled from spec section 4.2:
"performs a partial update restricted to the two moderation fields". -/
def UpdatePointStatusView.patch (db : Registry) (caller : User) (pk : Nat)
    (body : StatusBody) : Except ApiError (Registry × CollectionPoint) :=
  if IsAdminUser.has_permission caller then
    match db.points.find? (fun p => p.id == pk) with
    | none => Except.error ApiError.NotFound
    | some p =>
      let p2 : CollectionPoint := { p with
        is_active := body.is_active.getD p.is_active,
        status := body.status.getD p.status }
      Except.ok ({ db with
        points := db.points.map (fun q => if q.id == pk then p2 else q) }, p2)
  else
    Except.error ApiError.PermissionDenied

/-- `OperatingHourDetail.perform_create` (views.py lines 93-100): reads
`collection_point_pk` from the URL kwargs, runs
`get_object_or_404(CollectionPoint, pk=collection_point_pk)` (raising
`NotFound` when no such point exists), then
`serializer.save(collection_point_id=collection_point_pk)` — the keyword
argument to `save` overrides any foreign-key value in the validated body,
so the new row is linked to the path id unconditionally. -/
def OperatingHourDetail.perform_create (db : Registry)
    (collection_point_pk : Option Nat) (body : OperatingHourBody) :
    Except ApiError (Registry × OperatingHour) :=
  match collection_point_pk with
  | none => Except.error ApiError.NotFound
  | some pk =>
    if db.points.any (fun p => p.id == pk) then
      let new_hour : OperatingHour := { id := db.next_hour_id, collection_point_id := pk }
      Except.ok ({ db with hours := db.hours ++ [new_hour],
                           next_hour_id := db.next_hour_id + 1 }, new_hour)
    else
      Except.error ApiError.NotFound

/-- `PointImageUploadView.post` (views.py lines 159-173): first
`get_object_or_404(CollectionPoint, pk=pk)`, then the upload serializer is
validated (`ValidationError` when the file field is missing or malformed,
modelled as `none`), then one `PointImage` row linked to the found point is
created. -/
def PointImageUploadView.post (db : Registry) (pk : Nat) (image : Option String) :
    Except ApiError (Registry × PointImage) :=
  match db.points.find? (fun p => p.id == pk) with
  | none => Except.error ApiError.NotFound
  | some collection_point =>
    match image with
    | none => Except.error ApiError.ValidationError
    | some image_file =>
      let new_image : PointImage :=
        { id := db.next_image_id, collection_point_id := collection_point.id,
          image := image_file }
      Except.ok ({ db with images := db.images ++ [new_image],
                           next_image_id := db.next_image_id + 1 }, new_image)

/-- Create half of `PointReviewList` (views.py lines 103-109); the review
serializer's columns beyond the two foreign keys are irrelevant to every
claim. -/
def PointReviewList.post (db : Registry) (caller : User) (point_id : Nat) :
    Except ApiError (Registry × PointReview) :=
  let new_review : PointReview :=
    { id := db.reviews.length, user_id := caller.id, collection_point_id := point_id }
  Except.ok ({ db with reviews := db.reviews ++ [new_review] }, new_review)

/-- `PointReviewFilteredList.get` (views.py lines 134-146): reads the query
parameters `user_id` and — as written in the source — `id` (line 136), even
though the view's OpenAPI annotation declares the parameter `point_id`.
Query parameters are keyed by their string name; their values are the
integers the view declares (`type=int`), which Django coerces from the raw
string before comparing against the column.  An absent parameter (Python
truthiness on `query_params.get`) applies no filter. -/
def PointReviewFilteredList.get (db : Registry) (query_params : List (String × Nat)) :
    List PointReview :=
  let user_id := (query_params.find? (fun kv => kv.fst == "user_id")).map Prod.snd
  let point_id := (query_params.find? (fun kv => kv.fst == "id")).map Prod.snd
  let queryset := db.reviews
  let queryset := match user_id with
    | some n => queryset.filter (fun r => r.user_id == n)
    | none => queryset
  let queryset := match point_id with
    | some n => queryset.filter (fun r => r.collection_point_id == n)
    | none => queryset
  queryset

/-- The state-mutating requests of the eco_points API surface, used to state
that moderation fields change on no path but the admin endpoint. -/
inductive Request where
  | createPoint (caller : User) (body : PointBody)
  | updatePoint (pk : Nat) (body : PointBody)
  | deletePoint (pk : Nat)
  | moderate (caller : User) (pk : Nat) (body : StatusBody)
  | createHour (collection_point_pk : Option Nat) (body : OperatingHourBody)
  | uploadImage (pk : Nat) (image : Option String)
  | createReview (caller : User) (point_id : Nat)

/-- Dispatch one request against the registry.  A raised DRF exception
aborts the handler before any write, so an error leaves the state as it
was and reports the error alongside it. -/
def applyRequest (db : Registry) (r : Request) : Registry × Option ApiError :=
  match r with
  | Request.createPoint caller body =>
    match CollectionPointList.post db caller body with
    | Except.ok (db2, _) => (db2, none)
    | Except.error e => (db, some e)
  | Request.updatePoint pk body =>
    match CollectionPointDetail.update db pk body with
    | Except.ok (db2, _) => (db2, none)
    | Except.error e => (db, some e)
  | Request.deletePoint pk =>
    match CollectionPointDetail.delete db pk with
    | Except.ok db2 => (db2, none)
    | Except.error e => (db, some e)
  | Request.moderate caller pk body =>
    match UpdatePointStatusView.patch db caller pk body with
    | Except.ok (db2, _) => (db2, none)
    | Except.error e => (db, some e)
  | Request.createHour pk body =>
    match OperatingHourDetail.perform_create db pk body with
    | Except.ok (db2, _) => (db2, none)
    | Except.error e => (db, some e)
  | Request.uploadImage pk image =>
    match PointImageUploadView.post db pk image with
    | Except.ok (db2, _) => (db2, none)
    | Except.error e => (db, some e)
  | Request.createReview caller point_id =>
    match PointReviewList.post db caller point_id with
    | Except.ok (db2, _) => (db2, none)
    | Except.error e => (db, some e)

/-- A request is an admin moderation call when it addresses the moderation
endpoint with a caller granted by `IsAdminUser`. -/
def Request.isAdminModeration : Request → Prop
  | Request.moderate caller _ _ => IsAdminUser.has_permission caller = true
  | _ => False

/-! Helper lemmas shared by several claims. -/

theorem point_find?_eq_some {l : List CollectionPoint} {pk : Nat} {p : CollectionPoint}
    (h : l.find? (fun q => q.id == pk) = some p) : p ∈ l ∧ p.id = pk := by
  refine ⟨List.mem_of_find?_eq_some h, ?_⟩
  have hs := List.find?_some h
  simpa using hs

/-- C3: for every state of the registry, the active listing returns exactly
the points with `is_active = true`, the inactive-pending listing returns
exactly the points with `is_active = false` and `status = pending`, and the
two listings are disjoint. -/
theorem listings_active_inactive_exact (db : Registry) (p : CollectionPoint) :
    (p ∈ ActiveCollectionPointsList.get_queryset db ↔ p ∈ db.points ∧ p.is_active = true)
    ∧ (p ∈ InactiveCollectionPointsList.get_queryset db ↔
        p ∈ db.points ∧ p.is_active = false ∧ p.status = Status.pending)
    ∧ (p ∈ ActiveCollectionPointsList.get_queryset db →
        p ∉ InactiveCollectionPointsList.get_queryset db) := by
  refine ⟨?_, ?_, ?_⟩
  · simp [ActiveCollectionPointsList.get_queryset, List.mem_filter]
  · simp [InactiveCollectionPointsList.get_queryset, List.mem_filter, and_assoc]
  · intro hA hI
    have h1 := (List.mem_filter.mp hA).2
    have h2 := (List.mem_filter.mp hI).2
    simp at h1 h2
    rw [h1] at h2
    exact absurd h2.1 (by simp)

theorem listings_active_inactive_exact_witness :
    ({ id := 1, user := 1, description := "a", is_active := true,
       status := Status.approved } : CollectionPoint) ∈
      ActiveCollectionPointsList.get_queryset
        ⟨[{ id := 1, user := 1, description := "a", is_active := true,
            status := Status.approved },
          { id := 2, user := 1, description := "b", is_active := false,
            status := Status.pending }], [], [], [], 3, 0, 0⟩
    ∧ ({ id := 1, user := 1, description := "a", is_active := true,
         status := Status.approved } : CollectionPoint) ∉
      InactiveCollectionPointsList.get_queryset
        ⟨[{ id := 1, user := 1, description := "a", is_active := true,
            status := Status.approved },
          { id := 2, user := 1, description := "b", is_active := false,
            status := Status.pending }], [], [], [], 3, 0, 0⟩ := by
  have h := listings_active_inactive_exact
    ⟨[{ id := 1, user := 1, description := "a", is_active := true,
        status := Status.approved },
      { id := 2, user := 1, description := "b", is_active := false,
        status := Status.pending }], [], [], [], 3, 0, 0⟩
    { id := 1, user := 1, description := "a", is_active := true,
      status := Status.approved }
  have hmem := h.1.mpr ⟨by decide, rfl⟩
  exact ⟨hmem, h.2.2 hmem⟩

/-- C8: the own-submitted-points listing for user U returns exactly the
points whose owner is U — the filter does not look at `is_active` or
`status`, so pending/inactive points are included — and the listing is the
empty sequence when U owns none. -/
theorem own_points_listing_exact (db : Registry) (u : User) (p : CollectionPoint) :
    (p ∈ UserSubmitedCollectionPointsList.get_queryset db u ↔
      p ∈ db.points ∧ p.user = u.id)
    ∧ ((∀ q ∈ db.points, q.user ≠ u.id) →
        UserSubmitedCollectionPointsList.get_queryset db u = []) := by
  constructor
  · simp [UserSubmitedCollectionPointsList.get_queryset, List.mem_filter]
  · intro hnone
    simp [UserSubmitedCollectionPointsList.get_queryset, List.filter_eq_nil_iff]
    exact hnone

theorem own_points_listing_exact_witness :
    ({ id := 2, user := 5, description := "b", is_active := false,
       status := Status.pending } : CollectionPoint) ∈
      UserSubmitedCollectionPointsList.get_queryset
        ⟨[{ id := 1, user := 4, description := "a", is_active := true,
            status := Status.approved },
          { id := 2, user := 5, description := "b", is_active := false,
            status := Status.pending }], [], [], [], 3, 0, 0⟩
        { id := 5, is_staff := false }
    ∧ UserSubmitedCollectionPointsList.get_queryset
        ⟨[{ id := 1, user := 4, description := "a", is_active := true,
            status := Status.approved }], [], [], [], 2, 0, 0⟩
        { id := 5, is_staff := false } = [] := by
  constructor
  · exact (own_points_listing_exact
      ⟨[{ id := 1, user := 4, description := "a", is_active := true,
          status := Status.approved },
        { id := 2, user := 5, description := "b", is_active := false,
          status := Status.pending }], [], [], [], 3, 0, 0⟩
      { id := 5, is_staff := false }
      { id := 2, user := 5, description := "b", is_active := false,
        status := Status.pending }).1.mpr ⟨by decide, rfl⟩
  · exact (own_points_listing_exact
      ⟨[{ id := 1, user := 4, description := "a", is_active := true,
          status := Status.approved }], [], [], [], 2, 0, 0⟩
      { id := 5, is_staff := false }
      { id := 1, user := 4, description := "a", is_active := true,
        status := Status.approved }).2 (by decide)

/-- C9: a scoped operating-hours listing whose path point id names no
existing collection point — or whose context carries no point id at all —
returns the empty sequence rather than an error, while the scoped create on
the same id fails with `NotFound`: listing, unlike creation, never checks
that the parent point exists. -/
theorem scoped_hours_listing_no_parent_check (db : Registry) (hwf : db.wf)
    (pkOpt : Option Nat) (hmiss : ∀ p ∈ db.points, some p.id ≠ pkOpt) :
    OperatingHourDetail.get_queryset db pkOpt = []
    ∧ ∀ body, OperatingHourDetail.perform_create db pkOpt body =
        Except.error ApiError.NotFound := by
  constructor
  · match pkOpt with
    | none => rfl
    | some pk =>
      simp only [OperatingHourDetail.get_queryset]
      rw [List.filter_eq_nil_iff]
      intro h hh
      simp only [beq_iff_eq]
      intro hfk
      obtain ⟨p, hp, hpid⟩ := hwf.2.2 h hh
      exact hmiss p hp (by rw [hpid, hfk])
  · intro body
    match pkOpt with
    | none => rfl
    | some pk =>
      simp only [OperatingHourDetail.perform_create]
      have hany : db.points.any (fun p => p.id == pk) = false := by
        rw [Bool.eq_false_iff]
        intro h
        obtain ⟨p, hp, hpid⟩ := List.any_eq_true.mp h
        exact hmiss p hp (by simpa using hpid)
      rw [hany]
      rfl

theorem scoped_hours_listing_no_parent_check_witness :
    OperatingHourDetail.get_queryset
      ⟨[{ id := 1, user := 1, description := "a", is_active := true,
          status := Status.approved }],
       [{ id := 1, collection_point_id := 1 }], [], [], 2, 2, 0⟩ (some 9) = []
    ∧ OperatingHourDetail.perform_create
      ⟨[{ id := 1, user := 1, description := "a", is_active := true,
          status := Status.approved }],
       [{ id := 1, collection_point_id := 1 }], [], [], 2, 2, 0⟩ (some 9)
      { collection_point_id := none } = Except.error ApiError.NotFound := by
  have h := scoped_hours_listing_no_parent_check
    ⟨[{ id := 1, user := 1, description := "a", is_active := true,
        status := Status.approved }],
     [{ id := 1, collection_point_id := 1 }], [], [], 2, 2, 0⟩
    (by decide) (some 9) (by decide)
  exact ⟨h.1, h.2 { collection_point_id := none }⟩

/-- C4: a scoped create-operating-hour request whose path point id names no
existing collection point fails with `NotFound` and leaves the registry —
in particular the operating-hour table — unchanged. -/
theorem scoped_hour_create_missing_point (db : Registry) (pk : Nat)
    (body : OperatingHourBody) (hmiss : ∀ p ∈ db.points, p.id ≠ pk) :
    OperatingHourDetail.perform_create db (some pk) body = Except.error ApiError.NotFound
    ∧ (applyRequest db (Request.createHour (some pk) body)).1 = db := by
  have herr : OperatingHourDetail.perform_create db (some pk) body =
      Except.error ApiError.NotFound := by
    simp only [OperatingHourDetail.perform_create]
    have hany : db.points.any (fun p => p.id == pk) = false := by
      rw [Bool.eq_false_iff]
      intro h
      obtain ⟨p, hp, hpid⟩ := List.any_eq_true.mp h
      exact hmiss p hp (by simpa using hpid)
    rw [hany]
    rfl
  refine ⟨herr, ?_⟩
  simp only [applyRequest, herr]

theorem scoped_hour_create_missing_point_witness :
    OperatingHourDetail.perform_create
      ⟨[{ id := 1, user := 1, description := "a", is_active := true,
          status := Status.approved }], [], [], [], 2, 0, 0⟩ (some 7)
      { collection_point_id := some 1 } = Except.error ApiError.NotFound
    ∧ (applyRequest
        ⟨[{ id := 1, user := 1, description := "a", is_active := true,
            status := Status.approved }], [], [], [], 2, 0, 0⟩
        (Request.createHour (some 7) { collection_point_id := some 1 })).1 =
      ⟨[{ id := 1, user := 1, description := "a", is_active := true,
          status := Status.approved }], [], [], [], 2, 0, 0⟩ :=
  scoped_hour_create_missing_point
    ⟨[{ id := 1, user := 1, description := "a", is_active := true,
        status := Status.approved }], [], [], [], 2, 0, 0⟩ 7
    { collection_point_id := some 1 } (by decide)

/-- C5: a scoped create-operating-hour request on an existing point P whose
body names a different point Q as foreign key still creates a record linked
to P, the path id, not to Q: the `save(collection_point_id=...)` keyword
overrides the body value. -/
theorem scoped_hour_create_forces_path_fk (db : Registry) (pk q : Nat)
    (body : OperatingHourBody) (hex : ∃ p ∈ db.points, p.id = pk)
    (hbody : body.collection_point_id = some q) (hne : q ≠ pk) :
    ∃ db2 h, OperatingHourDetail.perform_create db (some pk) body = Except.ok (db2, h)
      ∧ h.collection_point_id = pk ∧ h ∈ db2.hours
      ∧ some h.collection_point_id ≠ body.collection_point_id := by
  have hany : db.points.any (fun p => p.id == pk) = true := by
    rw [List.any_eq_true]
    obtain ⟨p, hp, hpid⟩ := hex
    exact ⟨p, hp, by simpa using hpid⟩
  refine ⟨{ db with
            hours := db.hours ++ [⟨db.next_hour_id, pk⟩],
            next_hour_id := db.next_hour_id + 1 },
          ⟨db.next_hour_id, pk⟩, ?_, rfl, ?_, ?_⟩
  · simp only [OperatingHourDetail.perform_create, hany, if_true]
  · exact List.mem_append_right _ (List.mem_singleton_self _)
  · rw [hbody]
    intro hcontra
    exact hne (by simpa using hcontra.symm)

theorem scoped_hour_create_forces_path_fk_witness :
    ∃ db2 h, OperatingHourDetail.perform_create
        ⟨[{ id := 1, user := 1, description := "a", is_active := true,
            status := Status.approved }], [], [], [], 2, 0, 0⟩ (some 1)
        { collection_point_id := some 9 } = Except.ok (db2, h)
      ∧ h.collection_point_id = 1 ∧ h ∈ db2.hours
      ∧ some h.collection_point_id ≠
          ({ collection_point_id := some 9 } : OperatingHourBody).collection_point_id :=
  scoped_hour_create_forces_path_fk
    ⟨[{ id := 1, user := 1, description := "a", is_active := true,
        status := Status.approved }], [], [], [], 2, 0, 0⟩ 1 9
    { collection_point_id := some 9 }
    ⟨{ id := 1, user := 1, description := "a", is_active := true,
       status := Status.approved }, by decide, rfl⟩ rfl (by decide)

/-- C2: every successful create-point request stores a point with
`is_active = false` and `status = pending`, whatever values the client's
body carried for those two fields, and the stored point's owner is the
caller. -/
theorem create_point_moderation_defaults (db : Registry) (caller : User)
    (body : PointBody) (db2 : Registry) (p : CollectionPoint)
    (hok : CollectionPointList.post db caller body = Except.ok (db2, p)) :
    p.is_active = false ∧ p.status = Status.pending ∧ p.user = caller.id
    ∧ p ∈ db2.points := by
  match hd : body.description with
  | none =>
    rw [CollectionPointList.post, hd] at hok
    exact absurd hok (by simp)
  | some d =>
    rw [CollectionPointList.post, hd] at hok
    simp only [Except.ok.injEq, Prod.mk.injEq] at hok
    obtain ⟨hdb, hp⟩ := hok
    subst hp
    refine ⟨rfl, rfl, rfl, ?_⟩
    rw [← hdb]
    exact List.mem_append_right _ (List.mem_singleton_self _)

theorem create_point_moderation_defaults_witness :
    CollectionPointList.post ⟨[], [], [], [], 0, 0, 0⟩ { id := 3, is_staff := false }
      { description := some "a", is_active := some true, status := some Status.approved }
      = Except.ok (⟨[{ id := 0, user := 3, description := "a", is_active := false,
                       status := Status.pending }], [], [], [], 1, 0, 0⟩,
                   { id := 0, user := 3, description := "a", is_active := false,
                     status := Status.pending })
    ∧ ({ id := 0, user := 3, description := "a", is_active := false,
         status := Status.pending } : CollectionPoint).is_active = false
    ∧ ({ id := 0, user := 3, description := "a", is_active := false,
         status := Status.pending } : CollectionPoint).status = Status.pending :=
  ⟨rfl,
   (create_point_moderation_defaults ⟨[], [], [], [], 0, 0, 0⟩
     { id := 3, is_staff := false }
     { description := some "a", is_active := some true, status := some Status.approved }
     _ _ rfl).1,
   (create_point_moderation_defaults ⟨[], [], [], [], 0, 0, 0⟩
     { id := 3, is_staff := false }
     { description := some "a", is_active := some true, status := some Status.approved }
     _ _ rfl).2.1⟩

/-- C7: image upload is not idempotent — two sequential successful uploads
to the same point append two distinct `PointImage` rows, both linked to
that point, and grow the image table by exactly two. -/
theorem image_upload_not_idempotent (db : Registry) (pk : Nat) (f1 f2 : String)
    (db1 db2 : Registry) (i1 i2 : PointImage)
    (h1 : PointImageUploadView.post db pk (some f1) = Except.ok (db1, i1))
    (h2 : PointImageUploadView.post db1 pk (some f2) = Except.ok (db2, i2)) :
    i1 ≠ i2 ∧ i1.collection_point_id = pk ∧ i2.collection_point_id = pk
    ∧ i1 ∈ db2.images ∧ i2 ∈ db2.images
    ∧ db2.images.length = db.images.length + 2 := by
  match hf : db.points.find? (fun p => p.id == pk) with
  | none =>
    rw [PointImageUploadView.post, hf] at h1
    exact absurd h1 (by simp)
  | some cp =>
    have hcp := point_find?_eq_some hf
    rw [PointImageUploadView.post, hf] at h1
    simp only [Except.ok.injEq, Prod.mk.injEq] at h1
    obtain ⟨hdb1, hi1⟩ := h1
    subst hdb1
    subst hi1
    simp only [PointImageUploadView.post, Except.ok.injEq, Prod.mk.injEq, hf] at h2
    obtain ⟨hdb2, hi2⟩ := h2
    subst hdb2
    subst hi2
    refine ⟨?_, hcp.2, hcp.2, ?_, ?_, ?_⟩
    · intro hcontra
      have := congrArg PointImage.id hcontra
      simp at this
    · simp
    · simp
    · simp

theorem image_upload_not_idempotent_witness :
    PointImageUploadView.post
      ⟨[{ id := 1, user := 1, description := "a", is_active := true,
          status := Status.approved }], [], [], [], 2, 0, 0⟩ 1 (some "x.png") =
      Except.ok (⟨[{ id := 1, user := 1, description := "a", is_active := true,
                     status := Status.approved }], [], [],
                  [{ id := 0, collection_point_id := 1, image := "x.png" }], 2, 0, 1⟩,
                 { id := 0, collection_point_id := 1, image := "x.png" })
    ∧ ({ id := 0, collection_point_id := 1, image := "x.png" } : PointImage) ≠
        ({ id := 1, collection_point_id := 1, image := "x.png" } : PointImage)
    ∧ ({ id := 1, collection_point_id := 1, image := "x.png" } : PointImage) ∈
        (⟨[{ id := 1, user := 1, description := "a", is_active := true,
             status := Status.approved }], [], [],
          [{ id := 0, collection_point_id := 1, image := "x.png" },
           { id := 1, collection_point_id := 1, image := "x.png" }], 2, 0, 2⟩ :
          Registry).images := by
  have h := image_upload_not_idempotent
    ⟨[{ id := 1, user := 1, description := "a", is_active := true,
        status := Status.approved }], [], [], [], 2, 0, 0⟩ 1 "x.png" "x.png"
    ⟨[{ id := 1, user := 1, description := "a", is_active := true,
        status := Status.approved }], [], [],
     [{ id := 0, collection_point_id := 1, image := "x.png" }], 2, 0, 1⟩
    ⟨[{ id := 1, user := 1, description := "a", is_active := true,
        status := Status.approved }], [], [],
     [{ id := 0, collection_point_id := 1, image := "x.png" },
      { id := 1, collection_point_id := 1, image := "x.png" }], 2, 0, 2⟩
    { id := 0, collection_point_id := 1, image := "x.png" }
    { id := 1, collection_point_id := 1, image := "x.png" }
    rfl rfl
  exact ⟨rfl, h.1, h.2.2.2.2.1⟩

/-- C10: the image-upload handler resolves the target point before it
validates the upload serializer, so a request with a missing point id and a
missing or malformed file fails with `NotFound`, not `ValidationError`; and
neither failure — `NotFound` here, `ValidationError` when the point exists
but the file is bad — writes a `PointImage` row. -/
theorem image_upload_point_check_first (db : Registry) (pk : Nat)
    (hmiss : ∀ p ∈ db.points, p.id ≠ pk) :
    (∀ image, PointImageUploadView.post db pk image = Except.error ApiError.NotFound)
    ∧ (applyRequest db (Request.uploadImage pk none)).1 = db
    ∧ (∀ db0 : Registry, ∀ pk0 : Nat, (∃ p ∈ db0.points, p.id = pk0) →
        PointImageUploadView.post db0 pk0 none = Except.error ApiError.ValidationError
        ∧ (applyRequest db0 (Request.uploadImage pk0 none)).1 = db0) := by
  have hfn : db.points.find? (fun p => p.id == pk) = none := by
    rw [List.find?_eq_none]
    intro p hp
    simpa using hmiss p hp
  refine ⟨?_, ?_, ?_⟩
  · intro image
    rw [PointImageUploadView.post, hfn]
  · simp only [applyRequest, PointImageUploadView.post, hfn]
  · intro db0 pk0 hex
    obtain ⟨p, hp, hpid⟩ := hex
    have hsome : (db0.points.find? (fun q => q.id == pk0)).isSome :=
      List.find?_isSome.mpr ⟨p, hp, by simpa using hpid⟩
    obtain ⟨cp, hf⟩ := Option.isSome_iff_exists.mp hsome
    constructor
    · rw [PointImageUploadView.post, hf]
    · simp only [applyRequest, PointImageUploadView.post, hf]

theorem image_upload_point_check_first_witness :
    PointImageUploadView.post ⟨[], [], [], [], 0, 0, 0⟩ 3 none =
      Except.error ApiError.NotFound
    ∧ (applyRequest ⟨[], [], [], [], 0, 0, 0⟩ (Request.uploadImage 3 none)).1 =
      ⟨[], [], [], [], 0, 0, 0⟩
    ∧ PointImageUploadView.post
        ⟨[{ id := 3, user := 1, description := "a", is_active := true,
            status := Status.approved }], [], [], [], 4, 0, 0⟩ 3 none =
      Except.error ApiError.ValidationError := by
  have h := image_upload_point_check_first ⟨[], [], [], [], 0, 0, 0⟩ 3 (by decide)
  refine ⟨h.1 none, h.2.1, ?_⟩
  exact (h.2.2 ⟨[{ id := 3, user := 1, description := "a", is_active := true,
                   status := Status.approved }], [], [], [], 4, 0, 0⟩ 3
    ⟨{ id := 3, user := 1, description := "a", is_active := true,
       status := Status.approved }, by decide, rfl⟩).1

/-- C6, counterexample: the review filter reads the query parameter `id`
(views.py line 136) although the view declares and documents `point_id`, so
a request carrying `point_id=7` is not narrowed to point 7: on a registry
holding reviews for points 7 and 8 it returns both, while the same filter
value under the key the code actually reads returns only the point-7
review. -/
theorem review_filter_point_id_param_ignored :
    PointReviewFilteredList.get
      ⟨[], [], [{ id := 1, user_id := 1, collection_point_id := 7 },
                { id := 2, user_id := 1, collection_point_id := 8 }], [], 0, 0, 0⟩
      [("point_id", 7)] =
      [{ id := 1, user_id := 1, collection_point_id := 7 },
       { id := 2, user_id := 1, collection_point_id := 8 }]
    ∧ ({ id := 2, user_id := 1, collection_point_id := 8 } :
        PointReview).collection_point_id ≠ 7
    ∧ PointReviewFilteredList.get
      ⟨[], [], [{ id := 1, user_id := 1, collection_point_id := 7 },
                { id := 2, user_id := 1, collection_point_id := 8 }], [], 0, 0, 0⟩
      [("id", 7)] = [{ id := 1, user_id := 1, collection_point_id := 7 }] := by
  refine ⟨rfl, by decide, by decide⟩

/-! Helper lemmas for the moderation-only-path claim. -/

theorem frozen_in_db {db : Registry} (hwf : db.wf) {p q : CollectionPoint}
    (hp : p ∈ db.points) (hq : q ∈ db.points) (hid : q.id = p.id)
    (hdiff : q.is_active ≠ p.is_active ∨ q.status ≠ p.status) : False := by
  have hqp := hwf.2.1 q hq p hp hid
  rcases hdiff with h | h <;> exact h (by rw [hqp])

theorem createHour_preserves_points (db : Registry) (pkOpt : Option Nat)
    (body : OperatingHourBody) :
    (applyRequest db (Request.createHour pkOpt body)).1.points = db.points := by
  match pkOpt with
  | none => rfl
  | some pk =>
    cases h : db.points.any (fun p => p.id == pk) with
    | false => simp [applyRequest, OperatingHourDetail.perform_create, h]
    | true => simp [applyRequest, OperatingHourDetail.perform_create, h]

theorem uploadImage_preserves_points (db : Registry) (pk : Nat)
    (image : Option String) :
    (applyRequest db (Request.uploadImage pk image)).1.points = db.points := by
  cases hf : db.points.find? (fun p => p.id == pk) with
  | none => simp [applyRequest, PointImageUploadView.post, hf]
  | some cp =>
    cases image with
    | none => simp [applyRequest, PointImageUploadView.post, hf]
    | some f => simp [applyRequest, PointImageUploadView.post, hf]

theorem createReview_preserves_points (db : Registry) (caller : User)
    (point_id : Nat) :
    (applyRequest db (Request.createReview caller point_id)).1.points = db.points :=
  rfl

/-- C1: for every collection point and every non-admin caller, the
moderation endpoint answers `PermissionDenied` — whatever the target id, so
without revealing whether it exists — and leaves the registry unchanged;
and across the whole request surface, a point's `is_active` or `status`
changes only on an admin call to this endpoint. -/
theorem moderation_admin_only (db : Registry) (hwf : db.wf) (caller : User)
    (hnonadmin : caller.is_staff = false) (pk : Nat) (body : StatusBody) :
    UpdatePointStatusView.patch db caller pk body =
      Except.error ApiError.PermissionDenied
    ∧ (applyRequest db (Request.moderate caller pk body)).1 = db
    ∧ ∀ r : Request, ∀ p ∈ db.points, ∀ q ∈ (applyRequest db r).1.points,
        q.id = p.id → (q.is_active ≠ p.is_active ∨ q.status ≠ p.status) →
        r.isAdminModeration := by
  have hA : UpdatePointStatusView.patch db caller pk body =
      Except.error ApiError.PermissionDenied := by
    simp [UpdatePointStatusView.patch, IsAdminUser.has_permission, hnonadmin]
  refine ⟨hA, by simp only [applyRequest, hA], ?_⟩
  intro r p hp q hq hid hdiff
  cases r with
  | createPoint caller2 body2 =>
    exfalso
    cases hd : body2.description with
    | none =>
      simp only [applyRequest, CollectionPointList.post, hd] at hq
      exact frozen_in_db hwf hp hq hid hdiff
    | some d =>
      simp only [applyRequest, CollectionPointList.post, hd, List.mem_append,
        List.mem_singleton] at hq
      cases hq with
      | inl hq => exact frozen_in_db hwf hp hq hid hdiff
      | inr hq =>
        have hqid : q.id = db.next_point_id := by rw [hq]
        have hlt := hwf.1 p hp
        rw [hid] at hqid
        omega
  | updatePoint pk2 body2 =>
    exfalso
    cases hf : db.points.find? (fun x => x.id == pk2) with
    | none =>
      simp only [applyRequest, CollectionPointDetail.update, hf] at hq
      exact frozen_in_db hwf hp hq hid hdiff
    | some p0 =>
      cases hd : body2.description with
      | none =>
        simp only [applyRequest, CollectionPointDetail.update, hf, hd] at hq
        exact frozen_in_db hwf hp hq hid hdiff
      | some d =>
        simp only [applyRequest, CollectionPointDetail.update, hf, hd,
          List.mem_map] at hq
        obtain ⟨r0, hr0, hqr⟩ := hq
        by_cases hc : (r0.id == pk2) = true
        · rw [if_pos hc] at hqr
          have hp0 : p0 ∈ db.points := (point_find?_eq_some hf).1
          have hq_id : q.id = p0.id := by rw [← hqr]
          have hp0p : p0 = p := hwf.2.1 p0 hp0 p hp (by rw [← hq_id, hid])
          rcases hdiff with h | h
          · exact h (by rw [← hqr, hp0p])
          · exact h (by rw [← hqr, hp0p])
        · rw [if_neg hc] at hqr
          exact frozen_in_db hwf hp (hqr ▸ hr0) hid hdiff
  | deletePoint pk2 =>
    exfalso
    cases hf : db.points.find? (fun x => x.id == pk2) with
    | none =>
      simp only [applyRequest, CollectionPointDetail.delete, hf] at hq
      exact frozen_in_db hwf hp hq hid hdiff
    | some p0 =>
      simp only [applyRequest, CollectionPointDetail.delete, hf,
        List.mem_filter] at hq
      exact frozen_in_db hwf hp hq.1 hid hdiff
  | moderate caller2 pk2 body2 =>
    by_cases hstaff : IsAdminUser.has_permission caller2 = true
    · exact hstaff
    · exfalso
      have hfalse : IsAdminUser.has_permission caller2 = false := by
        simpa using hstaff
      simp only [applyRequest, UpdatePointStatusView.patch, hfalse,
        Bool.false_eq_true, if_false] at hq
      exact frozen_in_db hwf hp hq hid hdiff
  | createHour pkOpt body2 =>
    exfalso
    rw [createHour_preserves_points] at hq
    exact frozen_in_db hwf hp hq hid hdiff
  | uploadImage pk2 image =>
    exfalso
    rw [uploadImage_preserves_points] at hq
    exact frozen_in_db hwf hp hq hid hdiff
  | createReview caller2 point_id =>
    exfalso
    rw [createReview_preserves_points] at hq
    exact frozen_in_db hwf hp hq hid hdiff

theorem moderation_admin_only_witness :
    UpdatePointStatusView.patch
      ⟨[{ id := 1, user := 2, description := "a", is_active := false,
          status := Status.pending }], [], [], [], 2, 0, 0⟩
      { id := 5, is_staff := false } 1
      { is_active := some true, status := some Status.approved } =
      Except.error ApiError.PermissionDenied
    ∧ (applyRequest
        ⟨[{ id := 1, user := 2, description := "a", is_active := false,
            status := Status.pending }], [], [], [], 2, 0, 0⟩
        (Request.moderate { id := 5, is_staff := false } 1
          { is_active := some true, status := some Status.approved })).1 =
      ⟨[{ id := 1, user := 2, description := "a", is_active := false,
          status := Status.pending }], [], [], [], 2, 0, 0⟩ := by
  have h := moderation_admin_only
    ⟨[{ id := 1, user := 2, description := "a", is_active := false,
        status := Status.pending }], [], [], [], 2, 0, 0⟩
    (by decide) { id := 5, is_staff := false } rfl 1
    { is_active := some true, status := some Status.approved }
  exact ⟨h.1, h.2.1⟩

end EcoPonto
